import Mathlib

/-!
Verification of the batch-import automation script (`fill_data.py`) of the
MobileBusinessHallSystem repository.

The development shallowly embeds the two cores of the script:

* `CompleteUserGenerator` — the synthetic-record generator: the national-id
  checksum (`calc_check_code`, `generate_valid_id`), single-record synthesis
  (`generate_valid_user`) and the cyclic pre-generated pool (`get_users`).
  Randomness (`random.choice`, `random.randint`, `random.random`) is modelled
  by explicit draw parameters; theorems constrain them by the exact ranges the
  Python calls guarantee.

* `CompleteBusinessHallAutomation` — the workflow controller.  The wexpect
  channel is modelled by an environment (`Env`) that decides the outcome of
  each `expect` call (matched / timeout / raised) and of each `sendline` call
  (ok / raised); the controller is embedded as explicit state passing over a
  context (`Ctx`) recording the call counters, the lines actually transmitted
  (`trace`), and the number of per-record recovery keypresses (`recov`).

Python `datetime` subtraction with `timedelta(days = k)` and the `.year`
accessor are embedded with proleptic-Gregorian day arithmetic
(`daysFromCivil` / `civilFromDays`).
-/

namespace FillData

/-! ## Calendar arithmetic (embedding of `datetime` / `timedelta`)

Day counts are days since 0000-03-01 of the proleptic Gregorian calendar,
the calendar Python's `datetime` uses.  `timedelta(days = k)` subtraction is
subtraction on day counts; `.year` is the first component of `civilFromDays`.
-/

/-- Day count of the Gregorian date `(y, m, d)`, counted from 0000-03-01. -/
def daysFromCivil (y m d : Nat) : Nat :=
  let y' := if m ≤ 2 then y - 1 else y
  let era := y' / 400
  let yoe := y' % 400
  let mp := if 2 < m then m - 3 else m + 9
  let doy := (153 * mp + 2) / 5 + d - 1
  let doe := yoe * 365 + yoe / 4 - yoe / 100 + doy
  era * 146097 + doe

/-- Gregorian date `(y, m, d)` of a day count (days since 0000-03-01). -/
def civilFromDays (z : Nat) : Nat × Nat × Nat :=
  let era := z / 146097
  let doe := z % 146097
  let yoe := (doe - doe / 1460 + doe / 36524 - doe / 146096) / 365
  let y := yoe + era * 400
  let doy := doe - (365 * yoe + yoe / 4 - yoe / 100)
  let mp := (5 * doy + 2) / 153
  let d := doy - (153 * mp + 2) / 5 + 1
  let m := if mp < 10 then mp + 3 else mp - 9
  (if mp < 10 then y else y + 1, m, d)

/-- `(datetime.now() - timedelta(days=60*365)).year` for a generation time
whose day count is `now`: the smallest year `_generate_valid_id` can draw. -/
def min_birth_year (now : Nat) : Nat := (civilFromDays (now - 60 * 365)).1

/-- `(datetime.now() - timedelta(days=18*365)).year` for a generation time
whose day count is `now`: the largest year `_generate_valid_id` can draw. -/
def max_birth_year (now : Nat) : Nat := (civilFromDays (now - 18 * 365)).1

/-- Modelled from the spec: the birthdate `b = (year, month, day)` places the
age at generation time `now` (a day count) in the half-open interval
`[18, 60)` years — the 18th birthday has passed and the 60th has not. -/
def age_consistent (now : Nat) (b : Nat × Nat × Nat) : Prop :=
  daysFromCivil (b.1 + 18) b.2.1 b.2.2 ≤ now ∧ now < daysFromCivil (b.1 + 60) b.2.1 b.2.2

instance (now : Nat) (b : Nat × Nat × Nat) : Decidable (age_consistent now b) := by
  unfold age_consistent
  infer_instance

/-! ## `CompleteUserGenerator` : checksum and identifier -/

/-- `self.weights`: the 17 positional weights of the id checksum. -/
def weights : List Nat := [7, 9, 10, 5, 8, 4, 2, 1, 6, 3, 7, 9, 10, 5, 8, 4, 2]

/-- `self.check_codes`: the 11-symbol check-character lookup table. -/
def check_codes : List Char := ['1', '0', 'X', '9', '8', '7', '6', '5', '4', '3', '2']

/-- `_calc_check_code(id17)`: weighted sum of the 17 digits modulo 11,
looked up in `check_codes`.  The digits are modelled as naturals; the index
`total % 11` is always below the table length 11, so the `getD` default is
never consulted. -/
def calc_check_code (id17 : List Nat) : Char :=
  let total := (List.zipWith (· * ·) id17 weights).sum
  check_codes.getD (total % 11) 'X'

/-- The four `area_codes` literals of `_generate_valid_id`, as digit lists. -/
def area_codes : List (List Nat) :=
  [[1, 1, 0, 1, 0, 1], [3, 1, 0, 1, 0, 4], [4, 4, 0, 1, 0, 3], [4, 4, 0, 1, 0, 4]]

/-- Digits of Python `f"{n:0wd}"`: `w`-digit zero-padded decimal when
`n < 10 ^ w`, otherwise the plain decimal digits of `n`. -/
def pyFormat (w n : Nat) : List Nat :=
  if n < 10 ^ w then (List.range w).map (fun i => n / 10 ^ (w - 1 - i) % 10)
  else (Nat.digits 10 n).reverse

/-- The 17-digit prefix `area + birth + seq` built by `_generate_valid_id`
from the draws `random.choice(area_codes)`, `random.randint` for year, month,
day and the 3-digit sequence. -/
def id17_digits (a : Fin 4) (year month day seq : Nat) : List Nat :=
  area_codes.getD a.val [] ++ pyFormat 4 year ++ pyFormat 2 month ++
    pyFormat 2 day ++ pyFormat 3 seq

/-- The decimal digit character for `d`. -/
def digitChar (d : Nat) : Char := Char.ofNat (48 + d)

/-- `_generate_valid_id`, as a function of the random draws: the 17-digit
prefix followed by its check character. -/
def generate_valid_id (a : Fin 4) (year month day seq : Nat) : String :=
  let id17 := id17_digits a year month day seq
  ⟨id17.map digitChar ++ [calc_check_code id17]⟩

/-- The 8-digit birthdate segment of an identifier (character positions
6–13), decoded back to `(year, month, day)`. -/
def decodeBirth (id : String) : Nat × Nat × Nat :=
  let dAt := fun i => (id.data.getD i '0').toNat - 48
  (1000 * dAt 6 + 100 * dAt 7 + 10 * dAt 8 + dAt 9,
   10 * dAt 10 + dAt 11,
   10 * dAt 12 + dAt 13)

/-! ## `CompleteUserGenerator` : records and the cyclic pool -/

/-- One synthetic record, the dictionary built by `_generate_valid_user`. -/
structure User where
  name : String
  gender : String
  age : String
  id_card : String
  job : String
  address : String
deriving Repr, DecidableEq, Inhabited

/-- `self.last_names`. -/
def last_names : List String := ["王", "李", "张", "刘", "陈", "杨", "赵", "黄", "周", "吴"]

/-- `self.first_names`. -/
def first_names : List String := ["伟", "芳", "娜", "敏", "静", "丽", "强", "磊", "军", "杰"]

/-- `self.jobs`. -/
def jobs : List String := ["工程师", "教师", "医生", "销售", "经理", "程序员"]

/-- `self.cities`. -/
def cities : List String := ["北京市", "上海市", "广州市", "深圳市", "杭州市", "南京市"]

/-- `_generate_valid_user`, as a function of the random draws: `li`, `fi`,
`fi2` index the name vocabularies, `addSecond` is `random.random() > 0.3`,
`g` picks the gender, `age` is `random.randint(18, 60)`, the id draws are as
in `generate_valid_id`, `ji`/`ci` pick job and city, `house` is
`random.randint(1, 999)`.  `name[:6]` slices the first six characters. -/
def generate_valid_user (li fi : Fin 10) (addSecond : Bool) (fi2 : Fin 10)
    (g : Fin 2) (age : Nat) (a : Fin 4) (year month day seq : Nat)
    (ji ci : Fin 6) (house : Nat) : User :=
  let name0 := last_names.getD li.val "" ++ first_names.getD fi.val ""
  let name := if addSecond then name0 ++ first_names.getD fi2.val "" else name0
  { name := ⟨name.data.take 6⟩
    gender := (["男", "女"].getD g.val "")
    age := toString age
    id_card := generate_valid_id a year month day seq
    job := jobs.getD ji.val ""
    address := cities.getD ci.val "" ++ "中山路" ++ toString house ++ "号" }

/-- The generator's mutable state: the pre-generated pool (`__init__` builds
500 records) and the cyclic cursor `self.index` (initially 0). -/
structure GenState (α : Type) where
  pool : List α
  index : Nat
deriving Repr, DecidableEq

/-- `get_users(n)`: append `pool[index]` and advance
`index := (index + 1) % len(pool)`, `n` times. -/
def get_users {α : Type} [Inhabited α] : Nat → GenState α → List α × GenState α
  | 0, s => ([], s)
  | n + 1, s =>
      let u := s.pool.getD s.index default
      let s' : GenState α := ⟨s.pool, (s.index + 1) % s.pool.length⟩
      let p := get_users n s'
      (u :: p.1, p.2)

/-- A sequence of `get_users` calls with the given counts, concatenating the
served records. -/
def run_calls {α : Type} [Inhabited α] : List Nat → GenState α → List α × GenState α
  | [], s => ([], s)
  | k :: ks, s =>
      let p := get_users k s
      let q := run_calls ks p.2
      (p.1 ++ q.1, q.2)

/-! ## `CompleteBusinessHallAutomation` : the channel environment

The wexpect channel is modelled by an oracle: the `k`-th `proc.expect` call
of a run either matches some pattern, times out (`wexpect.TIMEOUT`), or
raises another exception (e.g. `wexpect.EOF`); the `k`-th `proc.sendline`
call either transmits its line or raises.  Which pattern matched only
affects logging in the script, so it is not recorded.
-/

/-- Outcome of one `proc.expect` call. -/
inductive WaitRes where
  | matched
  | timeout
  | err
deriving Repr, DecidableEq

/-- Outcome of one `proc.sendline` call. -/
inductive SendRes where
  | ok
  | err
deriving Repr, DecidableEq

/-- The simulated target: whether `wexpect.spawn` succeeds, and the outcome
of each `expect` / `sendline` call, indexed by call number. -/
structure Env where
  spawnOk : Bool
  waits : Nat → WaitRes
  sends : Nat → SendRes

/-- The controller's run state: the environment, the `expect` and `sendline`
call counters, the lines actually transmitted (in order), the number of
per-record recovery keypresses issued by the batch loop's `except` branch,
and the record generator's state. -/
structure Ctx where
  env : Env
  w : Nat
  s : Nat
  trace : List String
  recov : Nat
  gen : GenState User

/-- Computations of the controller: explicit state passing over `Ctx`, with
`Except Unit` for Python exceptions that escape the current method. -/
def M (α : Type) : Type := Ctx → Except Unit α × Ctx

instance : Monad M where
  pure := fun a c => (Except.ok a, c)
  bind := fun x f c =>
    match x c with
    | (Except.ok a, c2) => f a c2
    | (Except.error e, c2) => (Except.error e, c2)

/-! ### Prompt patterns (static configuration of the controller) -/

/-- `self.main_menu_patterns`. -/
def main_menu_patterns : List String :=
  ["=======\\s*移动营业厅管理系统\\s*=======", "请输入操作编号", "主菜单", "1\\D*新增用户", "1\\."]

/-- The six per-field prompt pattern sets, in the fixed insertion order of
the `self.field_patterns` dict: name, gender, age, id_card, job, address. -/
def field_patterns : List (String × List String) :=
  [("name", ["请输入.*姓名", "姓名.*", "姓名\\(.*\\)"]),
   ("gender", ["请输入.*性别", "性别.*"]),
   ("age", ["请输入.*年龄", "年龄.*"]),
   ("id_card", ["请输入.*身份证", "身份证.*"]),
   ("job", ["请输入.*职业", "职业.*"]),
   ("address", ["请输入.*地址", "地址.*"])]

/-- The generic "press any key" patterns used throughout the script. -/
def press_key_patterns : List String := ["Press any key", "按任意键"]

/-- The initialization-banner patterns waited for by `start_system`. -/
def init_patterns : List String := ["系统初始化完成", "欢迎使用移动营业厅管理系统"]

/-- `user[key]` for the six field keys iterated by `add_user_complete`. -/
def userField (u : User) (key : String) : String :=
  if key = "name" then u.name
  else if key = "gender" then u.gender
  else if key = "age" then u.age
  else if key = "id_card" then u.id_card
  else if key = "job" then u.job
  else u.address

/-! ### Channel primitives -/

/-- `wait_for_prompt(patterns, timeout)`: one `expect` call; returns `true`
on a match, `false` on `wexpect.TIMEOUT` (both only logged), and re-raises
any other exception.  The patterns and timeout only affect logging and the
simulated outcome oracle's view, so the embedding records just the call. -/
def wait_for_prompt (patterns : List String) (timeout : Nat) : M Bool := fun c =>
  match c.env.waits c.w with
  | WaitRes.matched => (Except.ok true, { c with w := c.w + 1 })
  | WaitRes.timeout => (Except.ok false, { c with w := c.w + 1 })
  | WaitRes.err => (Except.error (), { c with w := c.w + 1 })

/-- `send_command(cmd, delay)`: one `sendline` call; a raised write error is
caught inside the method (only logged), so `send_command` never raises and a
failed send transmits nothing. -/
def send_command (cmd : String) (delay : Option Nat) : M Unit := fun c =>
  match c.env.sends c.s with
  | SendRes.ok => (Except.ok (), { c with s := c.s + 1, trace := c.trace ++ [cmd] })
  | SendRes.err => (Except.ok (), { c with s := c.s + 1 })

/-- `press_any_key()`: `sendline('')` with its own try/except; never raises. -/
def press_any_key : M Unit := fun c =>
  match c.env.sends c.s with
  | SendRes.ok => (Except.ok (), { c with s := c.s + 1, trace := c.trace ++ [""] })
  | SendRes.err => (Except.ok (), { c with s := c.s + 1 })

/-! ### Menu navigation -/

/-- The `for i in range(2)` loop of `ensure_main_menu`: check the main-menu
patterns; on failure press a key and retry; after the rounds return `False`. -/
def ensure_rounds : Nat → M Bool
  | 0 => pure false
  | n + 1 => do
      let seen ← wait_for_prompt main_menu_patterns 5
      if seen then
        pure true
      else do
        press_any_key
        ensure_rounds n

/-- `ensure_main_menu()`. -/
def ensure_main_menu : M Bool := ensure_rounds 2

/-- The `for i in range(4)` loop of `start_system`: skip a possible
"press any key" pause, then check for the main menu; after four fruitless
rounds the script logs a warning and still returns `True`. -/
def start_rounds : Nat → M Bool
  | 0 => pure true
  | n + 1 => do
      let pk ← wait_for_prompt press_key_patterns 5
      if pk then press_any_key else pure ()
      let mm ← wait_for_prompt main_menu_patterns 6
      if mm then pure true else start_rounds n

/-- The body of `start_system` after a successful spawn: wait for the
initialization banner (result only logged), then the four rounds. -/
def start_body : M Bool := do
  let _ ← wait_for_prompt init_patterns 20
  start_rounds 4

/-- `start_system()`: `False` when `wexpect.spawn` raises; otherwise runs
the body, and any exception escaping it is caught and turned into `False`. -/
def start_system (c : Ctx) : Bool × Ctx :=
  if c.env.spawnOk then
    match start_body c with
    | (Except.ok b, c2) => (b, c2)
    | (Except.error _, c2) => (false, c2)
  else (false, c)

/-! ### Per-record flow -/

/-- One iteration of the field loop in `add_user_complete`: wait for the
field's prompt set and send the value whether or not it was detected (a
timeout only changes logging). -/
def send_field (patterns : List String) (val : String) : M Unit := do
  let seen ← wait_for_prompt patterns 8
  if seen then send_command val none
  else send_command val none

/-- The `for key, patterns in self.field_patterns.items()` loop. -/
def send_fields (u : User) : List (String × List String) → M Unit
  | [] => pure ()
  | (key, pats) :: rest => do
      send_field pats (userField u key)
      send_fields u rest

/-- The optional phone-registration sub-flow of `add_user_complete`: if the
offer prompt is seen, affirm with "1"; if the sub-choice prompt is seen,
choose "2" (random selection) and wait for the completion signal. -/
def phone_subflow : M Unit := do
  let phone ← wait_for_prompt ["是否立即注册手机号"] 8
  if phone then do
    send_command "1" none
    let sub ← wait_for_prompt ["手动输入", "随机选号"] 6
    if sub then do
      send_command "2" none
      let _ ← wait_for_prompt ["注册成功", "随机分配"] 10
      pure ()
    else pure ()
  else pure ()

/-- The trailing "press any key" acknowledgment of `add_user_complete`. -/
def final_ack : M Unit := do
  let pk ← wait_for_prompt press_key_patterns 5
  if pk then press_any_key else pure ()

/-- `add_user_complete(user)` up to (but not including) its `return 1`:
confirm the main menu (advisory), choose menu item 1, wait for the first
entry prompt, send the six fields in fixed order, run the optional
phone-registration sub-flow, and acknowledge a trailing "press any key". -/
def add_user_body (u : User) : M Unit := do
  let _ ← ensure_main_menu
  send_command "1" (some 2)
  let _ ← wait_for_prompt ["请输入.*姓名", "新增用户"] 8
  send_fields u field_patterns
  phone_subflow
  final_ack

/-- `add_user_complete(user)`: the body followed by `return 1`. -/
def add_user_complete (u : User) : M Nat := do
  add_user_body u
  pure 1

/-! ### Save / exit / batch loop -/

/-- `save_data()`. -/
def save_data : M Unit := do
  let _ ← ensure_main_menu
  send_command "8" none
  let _ ← wait_for_prompt ["保存成功", "数据已保存"] 10
  let pk ← wait_for_prompt press_key_patterns 5
  if pk then press_any_key else pure ()

/-- `exit_system()`: save again, confirm the menu, send the exit code. -/
def exit_system : M Unit := do
  save_data
  let _ ← ensure_main_menu
  send_command "9" none
  let _ ← wait_for_prompt ["系统已退出", "感谢使用"] 8
  pure ()

/-- `self.user_gen.get_users(n)` inside the controller's context. -/
def get_users_ctx (n : Nat) (c : Ctx) : List User × Ctx :=
  let p := get_users n c.gen
  (p.1, { c with gen := p.2 })

/-- The per-record loop of `run_complete_workflow`: each record is processed
inside `try/except`; an exception is logged, answered with one recovery
keypress, and the loop continues with the next record.  `recov` counts the
`except` branches taken. -/
def processUsers : List User → Nat → Ctx → Nat × Ctx
  | [], success, c => (success, c)
  | u :: rest, success, c =>
      match add_user_complete u c with
      | (Except.ok k, c2) => processUsers rest (success + k) c2
      | (Except.error _, c2) =>
          let c3 := (press_any_key { c2 with recov := c2.recov + 1 }).2
          processUsers rest success c3

/-- `run_complete_workflow(user_count)`: abort with `(False, 0)` when the
boot fails; otherwise fetch the records, run the per-record loop, then
`save_data()` and `exit_system()` (whose exceptions, if any, escape), and
return `(True, success)`. -/
def run_complete_workflow (user_count : Nat) (c : Ctx) : Except Unit (Bool × Nat) × Ctx :=
  match start_system c with
  | (false, c1) => (Except.ok (false, 0), c1)
  | (true, c1) =>
      let p := get_users_ctx user_count c1
      let q := processUsers p.1 0 p.2
      match (do save_data; exit_system : M Unit) q.2 with
      | (Except.ok _, c4) => (Except.ok (true, q.1), c4)
      | (Except.error e, c4) => (Except.error e, c4)

/-! ### Concrete environments and contexts for the scenario claims -/

/-- A fresh controller context over the given environment and record pool:
counters at zero, nothing sent, cursor at the start of the pool. -/
def mkCtx (env : Env) (pool : List User) : Ctx :=
  { env := env, w := 0, s := 0, trace := [], recov := 0, gen := ⟨pool, 0⟩ }

/-- A target that always responds correctly to the full prompt vocabulary:
every wait matches, every send succeeds. -/
def envAll : Env :=
  { spawnOk := true, waits := fun _ => WaitRes.matched, sends := fun _ => SendRes.ok }

/-- A target that responds correctly except that the 25th `sendline` call
(global index 24 — the age value of record #3 in a 5-record run) raises a
write failure. -/
def envWriteFail : Env :=
  { spawnOk := true, waits := fun _ => WaitRes.matched,
    sends := fun k => if k = 24 then SendRes.err else SendRes.ok }

/-- A target whose prompts for the six entry fields (and the preceding
name/new-user prompt) never appear — waits 1 through 7 of a fresh
`add_user_complete` all time out — while everything else behaves. -/
def envNoFieldPrompts : Env :=
  { spawnOk := true,
    waits := fun k => if 1 ≤ k ∧ k ≤ 7 then WaitRes.timeout else WaitRes.matched,
    sends := fun _ => SendRes.ok }

/-- A target whose executable cannot be spawned. -/
def envDead : Env :=
  { spawnOk := false, waits := fun _ => WaitRes.matched, sends := fun _ => SendRes.ok }

/-- The six field values of a record, in the fixed send order. -/
def userFields (u : User) : List String :=
  [u.name, u.gender, u.age, u.id_card, u.job, u.address]

/-- The full send sequence of one successfully processed record when every
prompt is detected: menu code "1", the six fields, the phone-registration
choices "1" and "2", and the final "press any key" acknowledgment. -/
def recordBlock (u : User) : List String :=
  ["1"] ++ userFields u ++ ["1", "2", ""]

/-- A concrete format-valid record used to instantiate scenario runs. -/
def sampleUser : User :=
  { name := "王伟", gender := "男", age := "25",
    id_card := "110101199001011234", job := "教师", address := "北京市中山路1号" }

/-- A concrete 500-record pool, as `__init__` would pre-generate. -/
def samplePool : List User := List.replicate 500 sampleUser

/-- A computation that never changes the recovery-keypress counter: every
controller primitive satisfies this, so only the batch loop's `except`
branch can increment `recov`. -/
def PreservesRecov {α : Type} (m : M α) : Prop :=
  ∀ c : Ctx, (m c).2.recov = c.recov

/-- The tail of `run_complete_workflow` after a successful boot under `env`
(which consumes three waits and one send under the scenario environments):
the per-record loop on the fetched records followed by `save_data` and
`exit_system`. -/
def runAfterBoot (env : Env) (p : List User × GenState User) :
    Except Unit (Bool × Nat) × Ctx :=
  let c2 : Ctx := { env := env, w := 3, s := 1, trace := [""], recov := 0, gen := p.2 }
  let q := processUsers p.1 0 c2
  match (do save_data; exit_system : M Unit) q.2 with
  | (Except.ok _, c4) => (Except.ok (true, q.1), c4)
  | (Except.error e, c4) => (Except.error e, c4)

/-! ## Helper lemmas : digits and the identifier layout -/

theorem digitChar_toNat : ∀ d : Nat, d < 10 → (digitChar d).toNat - 48 = d := by decide

theorem area_codes_getD (a : Fin 4) :
    (area_codes.getD a.val []).length = 6 ∧ ∀ d ∈ area_codes.getD a.val [], d < 10 := by
  fin_cases a <;> exact ⟨rfl, by decide⟩

theorem pyFormat_eq {w n : Nat} (h : n < 10 ^ w) :
    pyFormat w n = (List.range w).map (fun i => n / 10 ^ (w - 1 - i) % 10) := by
  simp [pyFormat, h]

theorem pyFormat_length {w n : Nat} (h : n < 10 ^ w) : (pyFormat w n).length = w := by
  rw [pyFormat_eq h]
  simp

theorem pyFormat_mem_lt (w n : Nat) : ∀ d ∈ pyFormat w n, d < 10 := by
  intro d hd
  unfold pyFormat at hd
  by_cases h : n < 10 ^ w
  · rw [if_pos h] at hd
    obtain ⟨i, _, hi⟩ := List.mem_map.mp hd
    omega
  · rw [if_neg h] at hd
    exact Nat.digits_lt_base (by norm_num) (List.mem_reverse.mp hd)

theorem id17_length (a : Fin 4) (year month day seq : Nat)
    (hy : year < 10000) (hm : month < 100) (hd : day < 100) (hs : seq < 1000) :
    (id17_digits a year month day seq).length = 17 := by
  have h4 : year < 10 ^ 4 := by norm_num [hy]
  have h2m : month < 10 ^ 2 := by norm_num [hm]
  have h2d : day < 10 ^ 2 := by norm_num [hd]
  have h3 : seq < 10 ^ 3 := by norm_num [hs]
  unfold id17_digits
  rw [List.length_append, List.length_append, List.length_append, List.length_append,
    (area_codes_getD a).1, pyFormat_length h4, pyFormat_length h2m,
    pyFormat_length h2d, pyFormat_length h3]

theorem id17_mem_lt (a : Fin 4) (year month day seq : Nat) :
    ∀ d ∈ id17_digits a year month day seq, d < 10 := by
  intro d hd
  unfold id17_digits at hd
  simp only [List.mem_append] at hd
  rcases hd with ((((h | h) | h) | h) | h)
  · exact (area_codes_getD a).2 d h
  · exact pyFormat_mem_lt 4 year d h
  · exact pyFormat_mem_lt 2 month d h
  · exact pyFormat_mem_lt 2 day d h
  · exact pyFormat_mem_lt 3 seq d h

theorem zipWith_digitChar : ∀ (ds W : List Nat), (∀ d ∈ ds, d < 10) →
    List.zipWith (fun c wt => (c.toNat - 48) * wt) (ds.map digitChar) W =
      List.zipWith (· * ·) ds W
  | [], W, _ => by cases W <;> rfl
  | d :: ds, [], _ => rfl
  | d :: ds, w :: W, h => by
      simp only [List.map_cons, List.zipWith_cons_cons]
      rw [digitChar_toNat d (h d (by simp)),
        zipWith_digitChar ds W (fun x hx => h x (by simp [hx]))]

/-- C1: every identifier produced by the generator is an 18-character
string whose 18th character is `CHECK[(Σ digit_i · WEIGHT_i) mod 11]`
recomputed over its own first 17 digit characters. -/
theorem C1_checksum (a : Fin 4) (year month day seq : Nat)
    (hy : year < 10000) (hm : month < 100) (hd : day < 100) (hs : seq < 1000) :
    (generate_valid_id a year month day seq).length = 18 ∧
    (generate_valid_id a year month day seq).data.getD 17 '?' =
      check_codes.getD
        ((List.zipWith (fun c wt => (c.toNat - 48) * wt)
            ((generate_valid_id a year month day seq).data.take 17) weights).sum % 11) '?' := by
  have hlen : (id17_digits a year month day seq).length = 17 :=
    id17_length a year month day seq hy hm hd hs
  have hmaplen : ((id17_digits a year month day seq).map digitChar).length = 17 := by
    simp [hlen]
  have hdata : (generate_valid_id a year month day seq).data =
      (id17_digits a year month day seq).map digitChar ++
        [calc_check_code (id17_digits a year month day seq)] := rfl
  have htake : (generate_valid_id a year month day seq).data.take 17 =
      (id17_digits a year month day seq).map digitChar := by
    rw [hdata, ← hmaplen, List.take_left]
  constructor
  · show (generate_valid_id a year month day seq).data.length = 18
    rw [hdata]
    simp [hlen]
  · rw [htake, zipWith_digitChar _ _ (id17_mem_lt a year month day seq), hdata,
      List.getD_append_right _ _ _ _ (by rw [hmaplen])]
    rw [hmaplen]
    show calc_check_code (id17_digits a year month day seq) = _
    unfold calc_check_code
    have h11 : ((List.zipWith (· * ·) (id17_digits a year month day seq) weights).sum % 11)
        < check_codes.length := by
      have : check_codes.length = 11 := rfl
      rw [this]
      exact Nat.mod_lt _ (by norm_num)
    rw [List.getD_eq_getElem _ _ h11, List.getD_eq_getElem _ _ h11]

/-- C1 witness at a concrete draw. -/
theorem C1_checksum_witness :
    (generate_valid_id 0 2008 12 28 0).length = 18 ∧
    (generate_valid_id 0 2008 12 28 0).data.getD 17 '?' =
      check_codes.getD
        ((List.zipWith (fun c wt => (c.toNat - 48) * wt)
            ((generate_valid_id 0 2008 12 28 0).data.take 17) weights).sum % 11) '?' :=
  C1_checksum 0 2008 12 28 0 (by norm_num) (by norm_num) (by norm_num) (by norm_num)

/-- C8 counterexample: by `_calc_check_code`, a 17-digit prefix whose
weighted sum is ≡ 2 (mod 11) receives the letter 'X' — which sits at index
2 of `check_codes` — while the 11th symbol (index 10) is the digit '2',
not that letter. -/
theorem C8_counterexample :
    calc_check_code [0, 0, 0, 0, 0, 0, 0, 2, 0, 0, 0, 0, 0, 0, 0, 0, 0] = 'X' ∧
    check_codes.getD 10 '?' = '2' ∧ check_codes.getD 10 '?' ≠ 'X' := by
  refine ⟨rfl, rfl, by decide⟩

/-- C8 amended: in `check_codes` the letter 'X' used for remainder 2 per
the standard algorithm is the 3rd symbol (index 2); the 11th symbol (index
10) is '2', the symbol for remainder 10.  The table has 11 symbols. -/
theorem C8_check_table :
    check_codes.length = 11 ∧ check_codes.getD 2 '?' = 'X' ∧
    check_codes.getD 10 '?' = '2' ∧
    calc_check_code [0, 0, 0, 0, 0, 0, 0, 2, 0, 0, 0, 0, 0, 0, 0, 0, 0] =
      check_codes.getD 2 '?' := by
  refine ⟨rfl, rfl, rfl, rfl⟩

/-! ## Helper lemmas : decoding the birthdate segment -/

theorem pyFormat_four (n : Nat) (h : n < 10000) :
    pyFormat 4 n = [n / 1000 % 10, n / 100 % 10, n / 10 % 10, n % 10] := by
  rw [pyFormat_eq (show n < 10 ^ 4 by norm_num [h])]
  norm_num [List.range_succ]

theorem pyFormat_three (n : Nat) (h : n < 1000) :
    pyFormat 3 n = [n / 100 % 10, n / 10 % 10, n % 10] := by
  rw [pyFormat_eq (show n < 10 ^ 3 by norm_num [h])]
  norm_num [List.range_succ]

theorem pyFormat_two (n : Nat) (h : n < 100) :
    pyFormat 2 n = [n / 10 % 10, n % 10] := by
  rw [pyFormat_eq (show n < 10 ^ 2 by norm_num [h])]
  norm_num [List.range_succ]

theorem decodeBirth_generate (a : Fin 4) (year month day seq : Nat)
    (hy : year < 10000) (hm : month < 100) (hd : day < 100) (hs : seq < 1000) :
    decodeBirth (generate_valid_id a year month day seq) = (year, month, day) := by
  have d1 : year / 1000 % 10 < 10 := Nat.mod_lt _ (by norm_num)
  have d2 : year / 100 % 10 < 10 := Nat.mod_lt _ (by norm_num)
  have d3 : year / 10 % 10 < 10 := Nat.mod_lt _ (by norm_num)
  have d4 : year % 10 < 10 := Nat.mod_lt _ (by norm_num)
  have d5 : month / 10 % 10 < 10 := Nat.mod_lt _ (by norm_num)
  have d6 : month % 10 < 10 := Nat.mod_lt _ (by norm_num)
  have d7 : day / 10 % 10 < 10 := Nat.mod_lt _ (by norm_num)
  have d8 : day % 10 < 10 := Nat.mod_lt _ (by norm_num)
  fin_cases a <;>
  · unfold decodeBirth generate_valid_id id17_digits
    rw [pyFormat_four year hy, pyFormat_two month hm, pyFormat_two day hd,
      pyFormat_three seq hs]
    simp only [area_codes, List.getD_cons_zero, List.getD_cons_succ, List.cons_append,
      List.nil_append, List.map_cons, String.data, List.append_assoc]
    rw [digitChar_toNat _ d1, digitChar_toNat _ d2, digitChar_toNat _ d3,
      digitChar_toNat _ d4, digitChar_toNat _ d5, digitChar_toNat _ d6,
      digitChar_toNat _ d7, digitChar_toNat _ d8]
    simp only [Prod.mk.injEq]
    omega

/-- C10: the 8-digit birthdate segment of every generated identifier
decodes to the drawn month in 1–12 and day in 1–28, hence always a valid
calendar date regardless of year. -/
theorem C10_birth_segment_valid (a : Fin 4) (year month day seq : Nat)
    (hy : year < 10000) (hm1 : 1 ≤ month) (hm2 : month ≤ 12)
    (hd1 : 1 ≤ day) (hd2 : day ≤ 28) (hs : seq < 1000) :
    (decodeBirth (generate_valid_id a year month day seq)).2.1 = month ∧
    1 ≤ (decodeBirth (generate_valid_id a year month day seq)).2.1 ∧
    (decodeBirth (generate_valid_id a year month day seq)).2.1 ≤ 12 ∧
    (decodeBirth (generate_valid_id a year month day seq)).2.2 = day ∧
    1 ≤ (decodeBirth (generate_valid_id a year month day seq)).2.2 ∧
    (decodeBirth (generate_valid_id a year month day seq)).2.2 ≤ 28 := by
  rw [decodeBirth_generate a year month day seq hy (by omega) (by omega) hs]
  exact ⟨rfl, hm1, hm2, rfl, hd1, hd2⟩

/-- C10 witness at a concrete draw. -/
theorem C10_birth_segment_valid_witness :
    (decodeBirth (generate_valid_id 1 1990 7 9 123)).2.1 = 7 ∧
    1 ≤ (decodeBirth (generate_valid_id 1 1990 7 9 123)).2.1 ∧
    (decodeBirth (generate_valid_id 1 1990 7 9 123)).2.1 ≤ 12 ∧
    (decodeBirth (generate_valid_id 1 1990 7 9 123)).2.2 = 9 ∧
    1 ≤ (decodeBirth (generate_valid_id 1 1990 7 9 123)).2.2 ∧
    (decodeBirth (generate_valid_id 1 1990 7 9 123)).2.2 ≤ 28 :=
  C10_birth_segment_valid 1 1990 7 9 123 (by norm_num) (by norm_num) (by norm_num)
    (by norm_num) (by norm_num) (by norm_num)

/-- C4 counterexample: at generation time 2026-10-12 the code may draw the
boundary year 2008 (= `max_birth.year`) together with month 12 and day 28 —
all inside the `randint` ranges — and the resulting record's identifier
encodes the birthdate 2008-12-28, which does not place the age in [18,60):
the person would be 17.  Only the year, not the full birthdate, is
constrained by `_generate_valid_id`. -/
theorem C4_counterexample :
    (18 ≤ 18 ∧ (18 : Nat) ≤ 60) ∧
    min_birth_year (daysFromCivil 2026 10 12) ≤ 2008 ∧
    2008 ≤ max_birth_year (daysFromCivil 2026 10 12) ∧
    (1 ≤ 12 ∧ (12 : Nat) ≤ 12 ∧ 1 ≤ 28 ∧ (28 : Nat) ≤ 28) ∧
    decodeBirth (generate_valid_user 0 0 false 0 0 18 0 2008 12 28 0 0 0 1).id_card =
      (2008, 12, 28) ∧
    ¬ age_consistent (daysFromCivil 2026 10 12)
        (decodeBirth (generate_valid_user 0 0 false 0 0 18 0 2008 12 28 0 0 0 1).id_card) := by
  decide

/-- C4 amended: every generated record has `age` in [18,60], and the 8-digit
birthdate segment of its identifier encodes exactly the drawn
`(year, month, day)` with the year in the inclusive range
`[min_birth.year, max_birth.year]` computed from the generation time; the
full birthdate, however, is not forced to be consistent with an age in
[18,60) (see the counterexample). -/
theorem C4_age_and_birth_year (now : Nat) (li fi : Fin 10) (addSecond : Bool)
    (fi2 : Fin 10) (g : Fin 2) (age : Nat) (a : Fin 4) (year month day seq : Nat)
    (ji ci : Fin 6) (house : Nat)
    (hage1 : 18 ≤ age) (hage2 : age ≤ 60)
    (hy1 : min_birth_year now ≤ year) (hy2 : year ≤ max_birth_year now)
    (hy : year < 10000) (hm1 : 1 ≤ month) (hm2 : month ≤ 12)
    (hd1 : 1 ≤ day) (hd2 : day ≤ 28) (hs : seq < 1000) :
    (generate_valid_user li fi addSecond fi2 g age a year month day seq ji ci house).age =
      toString age ∧ 18 ≤ age ∧ age ≤ 60 ∧
    decodeBirth
      (generate_valid_user li fi addSecond fi2 g age a year month day seq ji ci house).id_card =
      (year, month, day) ∧
    min_birth_year now ≤
      (decodeBirth
        (generate_valid_user li fi addSecond fi2 g age a year month day seq ji ci house).id_card).1 ∧
    (decodeBirth
      (generate_valid_user li fi addSecond fi2 g age a year month day seq ji ci house).id_card).1 ≤
      max_birth_year now := by
  have hdec : decodeBirth
      (generate_valid_user li fi addSecond fi2 g age a year month day seq ji ci house).id_card =
      (year, month, day) :=
    decodeBirth_generate a year month day seq hy (by omega) (by omega) hs
  refine ⟨rfl, hage1, hage2, hdec, ?_, ?_⟩
  · rw [hdec]
    exact hy1
  · rw [hdec]
    exact hy2

/-- C4 witness at a concrete generation time (2026-10-12) and draw. -/
theorem C4_age_and_birth_year_witness :
    (generate_valid_user 1 2 true 3 1 30 1 1990 6 15 7 2 3 88).age = toString 30 ∧
    18 ≤ 30 ∧ (30 : Nat) ≤ 60 ∧
    decodeBirth (generate_valid_user 1 2 true 3 1 30 1 1990 6 15 7 2 3 88).id_card =
      (1990, 6, 15) ∧
    min_birth_year (daysFromCivil 2026 10 12) ≤
      (decodeBirth (generate_valid_user 1 2 true 3 1 30 1 1990 6 15 7 2 3 88).id_card).1 ∧
    (decodeBirth (generate_valid_user 1 2 true 3 1 30 1 1990 6 15 7 2 3 88).id_card).1 ≤
      max_birth_year (daysFromCivil 2026 10 12) :=
  C4_age_and_birth_year (daysFromCivil 2026 10 12) 1 2 true 3 1 30 1 1990 6 15 7 2 3 88
    (by norm_num) (by norm_num) (by decide) (by decide) (by norm_num) (by norm_num)
    (by norm_num) (by norm_num) (by norm_num) (by norm_num)

/-! ## Helper lemmas : the cyclic pool -/

theorem get_users_spec {α : Type} [Inhabited α] :
    ∀ (n : Nat) (s : GenState α), s.index < s.pool.length →
    get_users n s =
      ((List.range n).map (fun i => s.pool.getD ((s.index + i) % s.pool.length) default),
       ⟨s.pool, (s.index + n) % s.pool.length⟩)
  | 0, s, h => by
      simp [get_users, Nat.mod_eq_of_lt h]
  | n + 1, s, h => by
      have hL : 0 < s.pool.length := Nat.lt_of_le_of_lt (Nat.zero_le _) h
      have ih := get_users_spec n ⟨s.pool, (s.index + 1) % s.pool.length⟩ (Nat.mod_lt _ hL)
      simp only [get_users]
      rw [ih]
      refine Prod.ext ?_ ?_
      · show s.pool.getD s.index default :: _ = _
        rw [List.range_succ_eq_map, List.map_cons, List.map_map]
        refine congrArg₂ _ ?_ ?_
        · rw [Nat.add_zero, Nat.mod_eq_of_lt h]
        · refine List.map_congr_left fun i _ => ?_
          show s.pool.getD (((s.index + 1) % s.pool.length + i) % s.pool.length) default = _
          rw [Nat.mod_add_mod]
          have : s.index + 1 + i = s.index + Nat.succ i := by omega
          rw [this]
          rfl
      · show (⟨s.pool, ((s.index + 1) % s.pool.length + n) % s.pool.length⟩ : GenState α) = _
        rw [Nat.mod_add_mod]
        have : s.index + 1 + n = s.index + (n + 1) := by omega
        rw [this]

theorem run_calls_spec {α : Type} [Inhabited α] :
    ∀ (ks : List Nat) (s : GenState α), s.index < s.pool.length →
    run_calls ks s =
      ((List.range ks.sum).map (fun i => s.pool.getD ((s.index + i) % s.pool.length) default),
       ⟨s.pool, (s.index + ks.sum) % s.pool.length⟩)
  | [], s, h => by
      simp [run_calls, Nat.mod_eq_of_lt h]
  | k :: ks, s, h => by
      have hL : 0 < s.pool.length := Nat.lt_of_le_of_lt (Nat.zero_le _) h
      have ih := run_calls_spec ks ⟨s.pool, (s.index + k) % s.pool.length⟩ (Nat.mod_lt _ hL)
      simp only [run_calls]
      rw [get_users_spec k s h, ih]
      refine Prod.ext ?_ ?_
      · show _ ++ _ = _
        rw [List.sum_cons, List.range_add, List.map_append, List.map_map]
        refine congrArg₂ _ rfl ?_
        refine List.map_congr_left fun i _ => ?_
        show s.pool.getD (((s.index + k) % s.pool.length + i) % s.pool.length) default = _
        rw [Nat.mod_add_mod]
        have : s.index + k + i = s.index + (k + i) := by omega
        rw [this]
        rfl
      · show (⟨s.pool, ((s.index + k) % s.pool.length + ks.sum) % s.pool.length⟩ : GenState α) = _
        rw [Nat.mod_add_mod, List.sum_cons]
        have : s.index + k + ks.sum = s.index + (k + ks.sum) := by omega
        rw [this]

/-- C5: over any sequence of `get_users` calls on a fresh generator with a
500-record pool, the `i`-th record served overall is the pool's record at
index `i mod 500`, and the pool itself is never changed (records are never
regenerated); `get_users` is total, so it never fails. -/
theorem C5_pool_cycling {α : Type} [Inhabited α] (pool : List α) (ks : List Nat) (i : Nat)
    (hLen : pool.length = 500) (hm : 500 < ks.sum) (hi : i < ks.sum) :
    (run_calls ks (⟨pool, 0⟩ : GenState α)).1.getD i default = pool.getD (i % 500) default ∧
    (run_calls ks (⟨pool, 0⟩ : GenState α)).2.pool = pool := by
  have h0 : (⟨pool, 0⟩ : GenState α).index < (⟨pool, 0⟩ : GenState α).pool.length := by
    show 0 < pool.length
    rw [hLen]
    norm_num
  rw [run_calls_spec ks _ h0]
  refine ⟨?_, rfl⟩
  have hi' : i < ((List.range ks.sum).map
      (fun i => pool.getD ((0 + i) % pool.length) default)).length := by
    simpa using hi
  rw [List.getD_eq_getElem _ _ hi', List.getElem_map, List.getElem_range, Nat.zero_add, hLen]

/-- C5 witness: two calls of 300 on a fresh 500-pool; the 501st record
served overall (index 501) is the pool's record at index 1. -/
theorem C5_pool_cycling_witness :
    (run_calls [300, 300] (⟨List.range 500, 0⟩ : GenState Nat)).1.getD 501 default =
      (List.range 500).getD (501 % 500) default ∧
    (run_calls [300, 300] (⟨List.range 500, 0⟩ : GenState Nat)).2.pool = List.range 500 :=
  C5_pool_cycling (List.range 500) [300, 300] 501 (by simp) (by norm_num) (by norm_num)

/-- C9: the cursor invariant of the record generator: starting from any
state with a 500-record pool and cursor below 500, `get_users n` advances
the cursor by exactly `n` modulo 500, keeps it below 500, and leaves the
pool unchanged (the freshly constructed state starts at cursor 0 < 500). -/
theorem C9_cursor_invariant {α : Type} [Inhabited α] (s : GenState α) (n : Nat)
    (hLen : s.pool.length = 500) (hidx : s.index < 500) :
    (get_users n s).2.index = (s.index + n) % 500 ∧
    (get_users n s).2.index < 500 ∧
    (get_users n s).2.pool = s.pool := by
  have h : s.index < s.pool.length := by
    rw [hLen]
    exact hidx
  rw [get_users_spec n s h]
  refine ⟨by rw [hLen], ?_, rfl⟩
  show (s.index + n) % s.pool.length < 500
  rw [hLen]
  exact Nat.mod_lt _ (by norm_num)

set_option maxRecDepth 10000 in
/-- C9 witness: from cursor 7, serving 1000 records puts the cursor at
`(7 + 1000) % 500 = 7`, still below 500, with the pool untouched. -/
theorem C9_cursor_invariant_witness :
    (get_users 1000 (⟨List.range 500, 7⟩ : GenState Nat)).2.index = (7 + 1000) % 500 ∧
    (get_users 1000 (⟨List.range 500, 7⟩ : GenState Nat)).2.index < 500 ∧
    (get_users 1000 (⟨List.range 500, 7⟩ : GenState Nat)).2.pool = List.range 500 := by
  exact C9_cursor_invariant (⟨List.range 500, 7⟩ : GenState Nat) 1000 (by simp) (by norm_num)

/-! ## Helper lemmas : the controller monad -/

theorem M_bind_eq {α β : Type} (x : M α) (f : α → M β) (c : Ctx) :
    (x >>= f) c =
      match x c with
      | (Except.ok a, c2) => f a c2
      | (Except.error e, c2) => (Except.error e, c2) := rfl

theorem M_pure_eq {α : Type} (a : α) (c : Ctx) : (pure a : M α) c = (Except.ok a, c) := rfl

theorem pure_preserves {α : Type} (a : α) : PreservesRecov (pure a : M α) := fun _ => rfl

theorem bind_preserves {α β : Type} {x : M α} {f : α → M β}
    (hx : PreservesRecov x) (hf : ∀ a, PreservesRecov (f a)) :
    PreservesRecov (x >>= f) := by
  intro c
  rw [M_bind_eq]
  rcases hxc : x c with ⟨r, c2⟩
  have hc2 : c2.recov = c.recov := by
    have := hx c
    rw [hxc] at this
    exact this
  rcases r with e | a
  · exact hc2
  · rw [hf a c2, hc2]

theorem ite_preserves {α : Type} (b : Bool) (m1 m2 : M α)
    (h1 : PreservesRecov m1) (h2 : PreservesRecov m2) :
    PreservesRecov (if b then m1 else m2) := by
  cases b
  · rw [if_neg (by simp)]
    exact h2
  · rw [if_pos rfl]
    exact h1

theorem wait_for_prompt_preserves (patterns : List String) (timeout : Nat) :
    PreservesRecov (wait_for_prompt patterns timeout) := by
  intro c
  unfold wait_for_prompt
  cases c.env.waits c.w <;> rfl

theorem send_command_preserves (cmd : String) (delay : Option Nat) :
    PreservesRecov (send_command cmd delay) := by
  intro c
  unfold send_command
  cases c.env.sends c.s <;> rfl

theorem press_any_key_preserves : PreservesRecov press_any_key := by
  intro c
  unfold press_any_key
  cases c.env.sends c.s <;> rfl

theorem ensure_rounds_preserves : ∀ n : Nat, PreservesRecov (ensure_rounds n)
  | 0 => pure_preserves false
  | n + 1 => by
      unfold ensure_rounds
      exact bind_preserves (wait_for_prompt_preserves _ _) fun seen =>
        ite_preserves seen _ _ (pure_preserves true)
          (bind_preserves press_any_key_preserves fun _ => ensure_rounds_preserves n)

theorem ensure_main_menu_preserves : PreservesRecov ensure_main_menu :=
  ensure_rounds_preserves 2

theorem send_field_preserves (patterns : List String) (val : String) :
    PreservesRecov (send_field patterns val) := by
  unfold send_field
  exact bind_preserves (wait_for_prompt_preserves _ _) fun seen =>
    ite_preserves seen _ _ (send_command_preserves _ _) (send_command_preserves _ _)

theorem send_fields_preserves (u : User) :
    ∀ ps : List (String × List String), PreservesRecov (send_fields u ps)
  | [] => pure_preserves ()
  | (key, pats) :: rest => by
      unfold send_fields
      exact bind_preserves (send_field_preserves _ _) fun _ =>
        send_fields_preserves u rest

theorem phone_subflow_preserves : PreservesRecov phone_subflow := by
  unfold phone_subflow
  refine bind_preserves (wait_for_prompt_preserves _ _) fun phone => ?_
  refine ite_preserves phone _ _ ?_ (pure_preserves ())
  refine bind_preserves (send_command_preserves _ _) fun _ => ?_
  refine bind_preserves (wait_for_prompt_preserves _ _) fun sub => ?_
  exact ite_preserves sub _ _
    (bind_preserves (send_command_preserves _ _) fun _ =>
      bind_preserves (wait_for_prompt_preserves _ _) fun _ => pure_preserves ())
    (pure_preserves ())

theorem final_ack_preserves : PreservesRecov final_ack := by
  unfold final_ack
  refine bind_preserves (wait_for_prompt_preserves _ _) fun pk => ?_
  exact ite_preserves pk _ _ press_any_key_preserves (pure_preserves ())

theorem add_user_body_preserves (u : User) : PreservesRecov (add_user_body u) := by
  unfold add_user_body
  refine bind_preserves ensure_main_menu_preserves fun _ => ?_
  refine bind_preserves (send_command_preserves _ _) fun _ => ?_
  refine bind_preserves (wait_for_prompt_preserves _ _) fun _ => ?_
  refine bind_preserves (send_fields_preserves u _) fun _ => ?_
  exact bind_preserves phone_subflow_preserves fun _ => final_ack_preserves

theorem add_user_complete_eq (u : User) (c : Ctx) :
    add_user_complete u c =
      match add_user_body u c with
      | (Except.ok _, c2) => (Except.ok 1, c2)
      | (Except.error e, c2) => (Except.error e, c2) := by
  show (add_user_body u >>= fun _ => pure 1) c = _
  rw [M_bind_eq]
  rcases add_user_body u c with ⟨r, c2⟩
  rcases r with e | a <;> rfl

/-! ## The batch loop -/

theorem processUsers_spec : ∀ (users : List User) (success : Nat) (c : Ctx),
    (processUsers users success c).1 + (processUsers users success c).2.recov =
      success + c.recov + users.length ∧
    success ≤ (processUsers users success c).1
  | [], success, c => by
      simp [processUsers]
  | u :: rest, success, c => by
      have hpres : (add_user_body u c).2.recov = c.recov := add_user_body_preserves u c
      rcases hb : add_user_body u c with ⟨r, c2⟩
      have hc2 : c2.recov = c.recov := by
        rw [hb] at hpres
        exact hpres
      have heq := add_user_complete_eq u c
      rw [hb] at heq
      have hcons : processUsers (u :: rest) success c =
          match add_user_complete u c with
          | (Except.ok k, c2) => processUsers rest (success + k) c2
          | (Except.error _, c2) =>
              processUsers rest success (press_any_key { c2 with recov := c2.recov + 1 }).2 := by
        simp only [processUsers]
      rcases r with e | a
      · have heq2 : add_user_complete u c = (Except.error e, c2) := by
          rw [heq]
        have hstep : processUsers (u :: rest) success c =
            processUsers rest success (press_any_key { c2 with recov := c2.recov + 1 }).2 := by
          rw [hcons, heq2]
        have hpk : ((press_any_key { c2 with recov := c2.recov + 1 }).2).recov =
            c2.recov + 1 := press_any_key_preserves _
        have ih := processUsers_spec rest success (press_any_key { c2 with recov := c2.recov + 1 }).2
        rw [hstep]
        constructor
        · rw [ih.1, hpk, hc2]
          simp [List.length_cons]
          omega
        · exact ih.2
      · have heq2 : add_user_complete u c = (Except.ok 1, c2) := by
          rw [heq]
        have hstep : processUsers (u :: rest) success c =
            processUsers rest (success + 1) c2 := by
          rw [hcons, heq2]
        have ih := processUsers_spec rest (success + 1) c2
        rw [hstep]
        constructor
        · rw [ih.1, hc2]
          simp [List.length_cons]
          omega
        · omega

/-! ## Workflow claims -/

/-- C6: when none of the field prompts (nor the preceding entry prompt) is
detected — every such wait times out — `add_user_complete` still sends all
six field values in the fixed order name, gender, age, id_card, job,
address, and returns 1 (the record is counted as success), since no
exception is raised during the sequence. -/
theorem C6_fields_sent_without_prompts (u : User) :
    add_user_complete u (mkCtx envNoFieldPrompts []) =
      (Except.ok 1,
       { env := envNoFieldPrompts, w := 12, s := 10,
         trace := ["1", u.name, u.gender, u.age, u.id_card, u.job, u.address, "1", "2", ""],
         recov := 0, gen := ⟨[], 0⟩ }) := by
  simp [add_user_complete, add_user_body, ensure_main_menu, ensure_rounds, phone_subflow,
    final_ack, send_fields, send_field, field_patterns, userField, M_bind_eq, M_pure_eq,
    wait_for_prompt, send_command, press_any_key, mkCtx, envNoFieldPrompts]

theorem runAfterBoot_envAll_three (u0 u1 u2 : User) (g : GenState User) :
    runAfterBoot envAll ([u0, u1, u2], g) =
      (Except.ok (true, 3),
       { env := envAll, w := 47, s := 36,
         trace := "" :: (recordBlock u0 ++ recordBlock u1 ++ recordBlock u2 ++
           ["8", "", "8", "", "9"]),
         recov := 0, gen := g }) := by
  simp [runAfterBoot, processUsers, add_user_complete, add_user_body, ensure_main_menu,
    ensure_rounds, phone_subflow, final_ack, send_fields, send_field, field_patterns,
    userField, save_data, exit_system, M_bind_eq, M_pure_eq, wait_for_prompt, send_command,
    press_any_key, envAll, recordBlock, userFields]

theorem runAfterBoot_envWriteFail_five (u0 u1 u2 u3 u4 : User) (g : GenState User) :
    runAfterBoot envWriteFail ([u0, u1, u2, u3, u4], g) =
      (Except.ok (true, 5),
       { env := envWriteFail, w := 71, s := 56,
         trace := "" :: (recordBlock u0 ++ recordBlock u1 ++
           ["1", u2.name, u2.gender, u2.id_card, u2.job, u2.address, "1", "2", ""] ++
           recordBlock u3 ++ recordBlock u4 ++ ["8", "", "8", "", "9"]),
         recov := 0, gen := g }) := by
  simp [runAfterBoot, processUsers, add_user_complete, add_user_body, ensure_main_menu,
    ensure_rounds, phone_subflow, final_ack, send_fields, send_field, field_patterns,
    userField, save_data, exit_system, M_bind_eq, M_pure_eq, wait_for_prompt, send_command,
    press_any_key, envWriteFail, recordBlock, userFields]

set_option maxRecDepth 100000 in
theorem get_users_samplePool_three :
    get_users 3 (⟨samplePool, 0⟩ : GenState User) =
      ([sampleUser, sampleUser, sampleUser], ⟨samplePool, 3⟩) := rfl

set_option maxRecDepth 100000 in
theorem get_users_samplePool_five :
    get_users 5 (⟨samplePool, 0⟩ : GenState User) =
      ([sampleUser, sampleUser, sampleUser, sampleUser, sampleUser], ⟨samplePool, 5⟩) := rfl

theorem run_eq_runAfterBoot_envAll (pool : List User) (n : Nat) :
    run_complete_workflow n (mkCtx envAll pool) =
      runAfterBoot envAll (get_users n (⟨pool, 0⟩ : GenState User)) := rfl

theorem run_eq_runAfterBoot_envWriteFail (pool : List User) (n : Nat) :
    run_complete_workflow n (mkCtx envWriteFail pool) =
      runAfterBoot envWriteFail (get_users n (⟨pool, 0⟩ : GenState User)) := rfl

theorem key_samplePool_three :
    run_complete_workflow 3 (mkCtx envAll samplePool) =
      runAfterBoot envAll ([sampleUser, sampleUser, sampleUser], ⟨samplePool, 3⟩) := by
  rw [run_eq_runAfterBoot_envAll, get_users_samplePool_three]

theorem key_samplePool_five :
    run_complete_workflow 5 (mkCtx envWriteFail samplePool) =
      runAfterBoot envWriteFail
        ([sampleUser, sampleUser, sampleUser, sampleUser, sampleUser], ⟨samplePool, 5⟩) := by
  rw [run_eq_runAfterBoot_envWriteFail, get_users_samplePool_five]

/-- C7: a failure to boot makes `run_complete_workflow` return immediately
with `(ok = false, success_count = 0)` and an untouched context (nothing
sent, no record fetched); and the per-record loop always processes every
record — each one either adds 1 to the success count or, if it raised, adds
exactly one recovery keypress, so `success + recoveries` always equals the
number of records and the batch is never cut short by one record's
failure. -/
theorem C7_error_isolation :
    (∀ (env : Env) (pool : List User) (n : Nat), env.spawnOk = false →
      run_complete_workflow n (mkCtx env pool) = (Except.ok (false, 0), mkCtx env pool)) ∧
    (∀ (users : List User) (success : Nat) (c : Ctx),
      (processUsers users success c).1 + (processUsers users success c).2.recov =
        success + c.recov + users.length ∧
      success ≤ (processUsers users success c).1) := by
  constructor
  · intro env pool n h
    simp [run_complete_workflow, start_system, mkCtx, h]
  · intro users success c
    exact processUsers_spec users success c

/-- C7 witness: a dead executable aborts a 4-record run with `(false, 0)`;
a 1-record loop satisfies the success/recovery accounting. -/
theorem C7_error_isolation_witness :
    run_complete_workflow 4 (mkCtx envDead samplePool) =
      (Except.ok (false, 0), mkCtx envDead samplePool) ∧
    ((processUsers [sampleUser] 0 (mkCtx envAll samplePool)).1 +
        (processUsers [sampleUser] 0 (mkCtx envAll samplePool)).2.recov =
      0 + (mkCtx envAll samplePool).recov + [sampleUser].length ∧
      0 ≤ (processUsers [sampleUser] 0 (mkCtx envAll samplePool)).1) :=
  ⟨C7_error_isolation.1 envDead samplePool 4 rfl,
   C7_error_isolation.2 [sampleUser] 0 (mkCtx envAll samplePool)⟩

/-- C2 counterexample: in a 3-record run against a fully cooperative
target the run does return `(true, 3)`, but the menu code "8" (save) is
sent twice, not once: `run_complete_workflow` calls `save_data()` and then
`exit_system()`, which itself calls `save_data()` again. -/
theorem C2_counterexample :
    (run_complete_workflow 3 (mkCtx envAll samplePool)).1 = Except.ok (true, 3) ∧
    (run_complete_workflow 3 (mkCtx envAll samplePool)).2.trace.count "8" = 2 ∧
    ¬ (run_complete_workflow 3 (mkCtx envAll samplePool)).2.trace.count "8" = 1 := by
  rw [key_samplePool_three, runAfterBoot_envAll_three]
  refine ⟨rfl, by decide, by decide⟩

/-- C2 amended: a 3-record run against a target that always responds
correctly returns `(ok = true, success_count = 3)` and sends exactly the
sequence: one boot keypress, then per record the menu code "1" immediately
followed by that record's six field values (then the phone sub-flow codes
"1", "2" and a keypress acknowledgment), then "8" twice — the save command
is issued once after the loop and once more inside `exit_system` — and "9"
once.  On the concrete standard pool the trace counts are "8" ↦ 2, "9" ↦ 1,
"1" ↦ 6, and exactly 3 positions start a block of "1" followed by the six
field values. -/
theorem C2_batch_of_three (pool : List User) (u0 u1 u2 : User)
    (hLen : pool.length = 500)
    (h0 : pool.getD 0 default = u0) (h1 : pool.getD 1 default = u1)
    (h2 : pool.getD 2 default = u2) :
    (run_complete_workflow 3 (mkCtx envAll pool)).1 = Except.ok (true, 3) ∧
    (run_complete_workflow 3 (mkCtx envAll pool)).2.trace =
      [""] ++ recordBlock u0 ++ recordBlock u1 ++ recordBlock u2 ++
        ["8", ""] ++ ["8", "", "9"] ∧
    (run_complete_workflow 3 (mkCtx envAll samplePool)).2.trace.count "8" = 2 ∧
    (run_complete_workflow 3 (mkCtx envAll samplePool)).2.trace.count "9" = 1 ∧
    (run_complete_workflow 3 (mkCtx envAll samplePool)).2.trace.count "1" = 6 ∧
    ((List.range (run_complete_workflow 3 (mkCtx envAll samplePool)).2.trace.length).filter
        (fun i =>
          decide (((run_complete_workflow 3 (mkCtx envAll samplePool)).2.trace.drop i).take 7 =
            "1" :: userFields sampleUser))).length = 3 := by
  have hpos : (0 : Nat) < pool.length := by
    rw [hLen]
    norm_num
  have hget : get_users 3 (⟨pool, 0⟩ : GenState User) = ([u0, u1, u2], ⟨pool, 3⟩) := by
    have e0 : (0 + 0) % pool.length = 0 := by rw [hLen]
    have e1 : (0 + 1) % pool.length = 1 := by rw [hLen]
    have e2 : (0 + 2) % pool.length = 2 := by rw [hLen]
    have e3 : (0 + 3) % pool.length = 3 := by rw [hLen]
    rw [get_users_spec 3 ⟨pool, 0⟩ hpos]
    show ((List.range 3).map (fun i => pool.getD ((0 + i) % pool.length) default),
        (⟨pool, (0 + 3) % pool.length⟩ : GenState User)) = _
    rw [show List.range 3 = [0, 1, 2] from rfl]
    simp only [List.map_cons, List.map_nil]
    rw [e0, e1, e2, e3, h0, h1, h2]
  have key : run_complete_workflow 3 (mkCtx envAll pool) =
      runAfterBoot envAll ([u0, u1, u2], ⟨pool, 3⟩) := by
    rw [run_eq_runAfterBoot_envAll, hget]
  rw [key, runAfterBoot_envAll_three, key_samplePool_three, runAfterBoot_envAll_three]
  refine ⟨rfl, ?_, by decide, by decide, by decide, by decide⟩
  simp [recordBlock, userFields]

/-- C2 witness at the concrete standard pool. -/
theorem C2_batch_of_three_witness :
    (run_complete_workflow 3 (mkCtx envAll samplePool)).1 = Except.ok (true, 3) ∧
    (run_complete_workflow 3 (mkCtx envAll samplePool)).2.trace =
      [""] ++ recordBlock sampleUser ++ recordBlock sampleUser ++ recordBlock sampleUser ++
        ["8", ""] ++ ["8", "", "9"] ∧
    (run_complete_workflow 3 (mkCtx envAll samplePool)).2.trace.count "8" = 2 ∧
    (run_complete_workflow 3 (mkCtx envAll samplePool)).2.trace.count "9" = 1 ∧
    (run_complete_workflow 3 (mkCtx envAll samplePool)).2.trace.count "1" = 6 ∧
    ((List.range (run_complete_workflow 3 (mkCtx envAll samplePool)).2.trace.length).filter
        (fun i =>
          decide (((run_complete_workflow 3 (mkCtx envAll samplePool)).2.trace.drop i).take 7 =
            "1" :: userFields sampleUser))).length = 3 := by
  exact C2_batch_of_three samplePool sampleUser sampleUser sampleUser
    (by rw [samplePool, List.length_replicate]) rfl rfl rfl

/-- C3 counterexample: in a 5-record run where the channel raises a write
failure mid-way through record #3's send sequence (on the age value), the
run returns `success_count = 5`, not 4, and no recovery keypress is issued:
`send_command` catches the write error itself, so the record still
completes and is counted as success. -/
theorem C3_counterexample :
    (run_complete_workflow 5 (mkCtx envWriteFail samplePool)).1 = Except.ok (true, 5) ∧
    (run_complete_workflow 5 (mkCtx envWriteFail samplePool)).2.recov = 0 ∧
    ¬ (run_complete_workflow 5 (mkCtx envWriteFail samplePool)).1 = Except.ok (true, 4) := by
  rw [key_samplePool_five, runAfterBoot_envWriteFail_five]
  refine ⟨rfl, rfl, by simp⟩

/-- C3 amended: a write failure raised by the channel in the middle of
record #3's send sequence is caught inside the send primitive and only
logged: the record still completes, the run returns
`(ok = true, success_count = 5)`, zero recovery keypresses are issued, and
the only observable effect is that the failed line (record #3's age value)
is missing from the transmitted sequence. -/
theorem C3_write_failure_swallowed (pool : List User) (u0 u1 u2 u3 u4 : User)
    (hLen : pool.length = 500)
    (h0 : pool.getD 0 default = u0) (h1 : pool.getD 1 default = u1)
    (h2 : pool.getD 2 default = u2) (h3 : pool.getD 3 default = u3)
    (h4 : pool.getD 4 default = u4) :
    (run_complete_workflow 5 (mkCtx envWriteFail pool)).1 = Except.ok (true, 5) ∧
    (run_complete_workflow 5 (mkCtx envWriteFail pool)).2.recov = 0 ∧
    (run_complete_workflow 5 (mkCtx envWriteFail pool)).2.trace =
      [""] ++ recordBlock u0 ++ recordBlock u1 ++
        ["1", u2.name, u2.gender, u2.id_card, u2.job, u2.address, "1", "2", ""] ++
        recordBlock u3 ++ recordBlock u4 ++ ["8", ""] ++ ["8", "", "9"] := by
  have hpos : (0 : Nat) < pool.length := by
    rw [hLen]
    norm_num
  have hget : get_users 5 (⟨pool, 0⟩ : GenState User) =
      ([u0, u1, u2, u3, u4], ⟨pool, 5⟩) := by
    have e0 : (0 + 0) % pool.length = 0 := by rw [hLen]
    have e1 : (0 + 1) % pool.length = 1 := by rw [hLen]
    have e2 : (0 + 2) % pool.length = 2 := by rw [hLen]
    have e3 : (0 + 3) % pool.length = 3 := by rw [hLen]
    have e4 : (0 + 4) % pool.length = 4 := by rw [hLen]
    have e5 : (0 + 5) % pool.length = 5 := by rw [hLen]
    rw [get_users_spec 5 ⟨pool, 0⟩ hpos]
    show ((List.range 5).map (fun i => pool.getD ((0 + i) % pool.length) default),
        (⟨pool, (0 + 5) % pool.length⟩ : GenState User)) = _
    rw [show List.range 5 = [0, 1, 2, 3, 4] from rfl]
    simp only [List.map_cons, List.map_nil]
    rw [e0, e1, e2, e3, e4, e5, h0, h1, h2, h3, h4]
  have key : run_complete_workflow 5 (mkCtx envWriteFail pool) =
      runAfterBoot envWriteFail ([u0, u1, u2, u3, u4], ⟨pool, 5⟩) := by
    rw [run_eq_runAfterBoot_envWriteFail, hget]
  rw [key, runAfterBoot_envWriteFail_five]
  refine ⟨rfl, rfl, ?_⟩
  simp [recordBlock, userFields]

/-- C3 witness at the concrete standard pool. -/
theorem C3_write_failure_swallowed_witness :
    (run_complete_workflow 5 (mkCtx envWriteFail samplePool)).1 = Except.ok (true, 5) ∧
    (run_complete_workflow 5 (mkCtx envWriteFail samplePool)).2.recov = 0 ∧
    (run_complete_workflow 5 (mkCtx envWriteFail samplePool)).2.trace =
      [""] ++ recordBlock sampleUser ++ recordBlock sampleUser ++
        ["1", sampleUser.name, sampleUser.gender, sampleUser.id_card, sampleUser.job,
          sampleUser.address, "1", "2", ""] ++
        recordBlock sampleUser ++ recordBlock sampleUser ++ ["8", ""] ++ ["8", "", "9"] := by
  exact C3_write_failure_swallowed samplePool sampleUser sampleUser sampleUser sampleUser
    sampleUser (by rw [samplePool, List.length_replicate]) rfl rfl rfl rfl rfl

end FillData
